import Mathlib

/-!
Shallow embedding of the splunk-mcp normalization layer:
the `SplunkClient` response normalizers (search-query preparation,
directory-entry listings over the `{entry: [...]}` envelope, user
record coercion, KV-store collection assembly) and the
`SignalFxClient` trace parsing / query building.

HTTP transport is outside the embedding: each function takes the
upstream response payload (already decoded) as an argument.
JavaScript numbers appearing in the claims are integers; they are
modelled as `Int`, with IEEE infinities modelled explicitly by `ENum`
where the code produces them (`Math.min(..., Infinity)` /
`Math.max(..., -Infinity)` over an empty spread).
-/

/-- JavaScript number extended with the IEEE special values produced by
`Math.min`/`Math.max` over empty argument lists and by subtraction of
infinities. Finite values are integers (all values in the claims are). -/
inductive ENum where
  | negInf : ENum
  | fin (z : Int) : ENum
  | posInf : ENum
  | nan : ENum
deriving DecidableEq, Repr

/-- `Math.min` of two values (NaN propagates; otherwise the smaller). -/
def eMin : ENum → ENum → ENum
  | .nan, _ => .nan
  | _, .nan => .nan
  | .negInf, _ => .negInf
  | _, .negInf => .negInf
  | .posInf, y => y
  | x, .posInf => x
  | .fin a, .fin b => .fin (min a b)

/-- `Math.max` of two values (NaN propagates; otherwise the larger). -/
def eMax : ENum → ENum → ENum
  | .nan, _ => .nan
  | _, .nan => .nan
  | .posInf, _ => .posInf
  | _, .posInf => .posInf
  | .negInf, y => y
  | x, .negInf => x
  | .fin a, .fin b => .fin (max a b)

/-- IEEE subtraction on extended numbers: `Infinity - Infinity = NaN`,
`-Infinity - Infinity = -Infinity`, `x - Infinity = -Infinity`, etc. -/
def eSub : ENum → ENum → ENum
  | .nan, _ => .nan
  | _, .nan => .nan
  | .posInf, .posInf => .nan
  | .negInf, .negInf => .nan
  | .posInf, _ => .posInf
  | .negInf, _ => .negInf
  | .fin _, .posInf => .negInf
  | .fin _, .negInf => .posInf
  | .fin a, .fin b => .fin (a - b)

/-- JavaScript `v || d` for an optional number: absent or `0` (falsy)
gives the default, any other number gives itself. -/
def jsOrInt (v : Option Int) (d : Int) : Int :=
  match v with
  | none => d
  | some n => if n = 0 then d else n

/-- JavaScript `v || d` for an optional string: absent or `""` (falsy)
gives the default, any other string gives itself. -/
def jsOrStr (v : Option String) (d : String) : String :=
  match v with
  | none => d
  | some s => if s = "" then d else s

/-- The ASCII whitespace characters stripped by `String.prototype.trim`
that occur in the claims. -/
def wsChar (c : Char) : Bool :=
  c = ' ' || c = '\t' || c = '\n' || c = '\r'

/-- JavaScript `s.trim()`: strip leading and trailing whitespace. -/
def jsTrim (s : String) : String :=
  ⟨((s.data.dropWhile wsChar).reverse.dropWhile wsChar).reverse⟩

/-- JavaScript `s.startsWith(p)`. -/
def jsStartsWith (s p : String) : Bool :=
  p.data.isPrefixOf s.data

/-- ASCII lower-casing of one character (`String.prototype.toLowerCase`
restricted to ASCII letters, which is all the code compares against). -/
def jsLowerChar (c : Char) : Char :=
  if 'A' ≤ c ∧ c ≤ 'Z' then Char.ofNat (c.toNat + 32) else c

/-- JavaScript `s.toLowerCase()` (ASCII). -/
def jsToLower (s : String) : String :=
  ⟨s.data.map jsLowerChar⟩

/-! ## SplunkClient: search query preparation (`searchSplunk`, validation
and prefix normalization, before any network call) -/

/-- Embedding of the query-preparation stage of `SplunkClient.searchSplunk`:
`if (!searchQuery) throw new Error("Search query cannot be empty")`, then
prepend `search ` to the original (untrimmed) query unless the trimmed
query starts with `|` or its lower-casing starts with `search`.
An `Except.ok` value is the outbound query of the network request that
is then issued; `Except.error` is the thrown validation failure. -/
def prepareSearchQuery (searchQuery : String) : Except String String :=
  if searchQuery = "" then Except.error "Search query cannot be empty"
  else
    let strippedQuery := jsTrim searchQuery
    if !(jsStartsWith strippedQuery "|") && !(jsStartsWith (jsToLower strippedQuery) "search")
    then Except.ok ("search " ++ searchQuery)
    else Except.ok searchQuery

/-! ## SplunkClient: directory-entry listings over the `{entry: [...]}`
envelope -/

/-- An envelope entry of which only `name` is consumed (`listIndexes`). -/
structure NamedEntry where
  name : String
deriving DecidableEq, Repr

/-- Embedding of `SplunkClient.listIndexes`: `response.data.entry.map(e => e.name)`
with no guard on `entry`. A missing `entry` makes `.map` on `undefined`
throw a TypeError, which the surrounding catch logs and re-throws;
that failure is the `Except.error` case. -/
def listIndexes (entry : Option (List NamedEntry)) : Except String (List String) :=
  match entry with
  | none => Except.error "TypeError: response.data.entry is undefined"
  | some es => Except.ok (es.map (fun e => e.name))

/-- The `content` record of one index entry as read by `getIndexInfo`
(each field may be absent; falsy values fall back via `|| "0"`). -/
structure SplunkIndexContent where
  totalEventCount : Option String
  currentDBSizeMB : Option String
  maxTotalDataSizeMB : Option String
  minTime : Option String
  maxTime : Option String
deriving DecidableEq, Repr

/-- One envelope entry of the index detail endpoint. -/
structure IndexEntry where
  name : String
  content : SplunkIndexContent
deriving DecidableEq, Repr

/-- The normalized index record returned by `getIndexInfo`. -/
structure SplunkIndex where
  name : String
  totalEventCount : String
  currentDBSizeMB : String
  maxTotalDataSizeMB : String
  minTime : String
  maxTime : String
deriving DecidableEq, Repr

/-- Embedding of `SplunkClient.getIndexInfo`: a missing or empty `entry`
throws `Index not found: <name>`; otherwise the first entry's content is
normalized with `String(content.x || "0")` per field. -/
def getIndexInfo (indexName : String) (entry : Option (List IndexEntry)) :
    Except String SplunkIndex :=
  match entry with
  | none => Except.error ("Index not found: " ++ indexName)
  | some [] => Except.error ("Index not found: " ++ indexName)
  | some (e :: _) =>
    Except.ok
      { name := indexName
        totalEventCount := jsOrStr e.content.totalEventCount "0"
        currentDBSizeMB := jsOrStr e.content.currentDBSizeMB "0"
        maxTotalDataSizeMB := jsOrStr e.content.maxTotalDataSizeMB "0"
        minTime := jsOrStr e.content.minTime "0"
        maxTime := jsOrStr e.content.maxTime "0" }

/-- The `content` record of one saved-search entry (optional because the
code reads it through `entry.content?.`). -/
structure SavedContent where
  description : Option String
  search : Option String
deriving DecidableEq, Repr

/-- One envelope entry of the saved-searches endpoint. -/
structure SavedEntry where
  name : String
  content : Option SavedContent
deriving DecidableEq, Repr

/-- A normalized saved search. -/
structure SavedSearch where
  name : String
  description : String
  search : String
deriving DecidableEq, Repr

/-- Embedding of `SplunkClient.listSavedSearches`: iterates
`response.data.entry || []`, taking `entry.content?.description || ""`
and `entry.content?.search || ""`. -/
def listSavedSearches (entry : Option (List SavedEntry)) : List SavedSearch :=
  (entry.getD []).map (fun e =>
    { name := e.name
      description := jsOrStr (e.content.bind (fun c => c.description)) ""
      search := jsOrStr (e.content.bind (fun c => c.search)) "" })

/-! ## SplunkClient: user records (`getCurrentUser`, `listUsers`) -/

/-- A raw JSON value that the code expects to be a string array but that
upstream may deliver as a scalar or omit (`roles`, `capabilities`). -/
inductive JStrings where
  | absent : JStrings
  | scalar (s : String) : JStrings
  | array (xs : List String) : JStrings
deriving DecidableEq, Repr

/-- The three-case coercion `Array.isArray(x) ? x : x ? [x] : []`:
array as-is, truthy scalar wrapped (a falsy scalar — the empty
string — gives `[]`), absent gives `[]`. -/
def coerceThreeCase : JStrings → List String
  | .array xs => xs
  | .scalar s => if s = "" then [] else [s]
  | .absent => []

/-- The two-case coercion `Array.isArray(x) ? x : []` used for
`capabilities` in `getCurrentUser`: array as-is, anything else `[]`. -/
def coerceArrayOnly : JStrings → List String
  | .array xs => xs
  | _ => []

/-- The `content` record of one user entry. -/
structure UserContent where
  roles : JStrings
  capabilities : JStrings
  realname : Option String
  email : Option String
  defaultApp : Option String
  utype : Option String
deriving DecidableEq, Repr

/-- One envelope entry of the users endpoint (`utype` models the raw
`type` field, a reserved word in Lean). -/
structure UserEntry where
  name : String
  content : UserContent
deriving DecidableEq, Repr

/-- A normalized Splunk user record. -/
structure SplunkUser where
  username : String
  real_name : String
  email : String
  roles : List String
  capabilities : List String
  default_app : String
  utype : String
deriving DecidableEq, Repr

/-- Embedding of `SplunkClient.listUsers`: iterates
`response.data.entry || []`; `roles` and `capabilities` both get the
three-case coercion; the remaining fields default via `||`. -/
def listUsers (entry : Option (List UserEntry)) : List SplunkUser :=
  (entry.getD []).map (fun e =>
    { username := e.name
      real_name := jsOrStr e.content.realname "N/A"
      email := jsOrStr e.content.email "N/A"
      roles := coerceThreeCase e.content.roles
      capabilities := coerceThreeCase e.content.capabilities
      default_app := jsOrStr e.content.defaultApp "search"
      utype := jsOrStr e.content.utype "user" })

/-- The `content` of one current-context entry (read through
`entry[0].content?.username`). -/
structure CtxContent where
  username : Option String
deriving DecidableEq, Repr

/-- One envelope entry of the current-context endpoint. -/
structure CtxEntry where
  content : Option CtxContent
deriving DecidableEq, Repr

/-- Username resolution in `getCurrentUser`: start from
`config.username || "admin"`; if the current-context fetch succeeded,
its entry list is non-empty and the first entry's `content?.username`
is truthy, use that username instead. -/
def resolveUsername (configUsername : Option String)
    (ctx : Except Unit (Option (List CtxEntry))) : String :=
  let base := jsOrStr configUsername "admin"
  match ctx with
  | Except.error _ => base
  | Except.ok entry =>
    match entry with
    | some (e :: _) =>
      match e.content.bind (fun c => c.username) with
      | some u => if u = "" then base else u
      | none => base
    | _ => base

/-- Embedding of `SplunkClient.getCurrentUser` given the resolved inputs:
the config username, the result of the current-context fetch, and the
`entry` list of the user detail response. A missing or empty entry list
throws `User not found: <username>`; otherwise `roles` gets the
three-case coercion while `capabilities` gets only the two-case
`Array.isArray(x) ? x : []`. -/
def getCurrentUser (configUsername : Option String)
    (ctx : Except Unit (Option (List CtxEntry)))
    (userEntry : Option (List UserEntry)) : Except String SplunkUser :=
  let currentUsername := resolveUsername configUsername ctx
  match userEntry with
  | none => Except.error ("User not found: " ++ currentUsername)
  | some [] => Except.error ("User not found: " ++ currentUsername)
  | some (e :: _) =>
    Except.ok
      { username := currentUsername
        real_name := jsOrStr e.content.realname "N/A"
        email := jsOrStr e.content.email "N/A"
        roles := coerceThreeCase e.content.roles
        capabilities := coerceArrayOnly e.content.capabilities
        default_app := jsOrStr e.content.defaultApp "search"
        utype := jsOrStr e.content.utype "user" }

/-! ## SplunkClient: KV store collections (`listKVStoreCollections`) -/

/-- One parsed record of the collection-stats payload (`ns`, `count`;
either may be missing: the code keeps it only when `parsed.ns` is truthy
and `parsed.count !== undefined`). -/
structure KVStatRec where
  ns : Option String
  count : Option Int
deriving DecidableEq, Repr

/-- The `content` of the single stats entry (`content.data || []`). -/
structure KVStatsContent where
  data : Option (List KVStatRec)
deriving DecidableEq, Repr

/-- One envelope entry of the collection-stats endpoint. -/
structure KVStatsEntry where
  content : KVStatsContent
deriving DecidableEq, Repr

/-- One envelope entry of the collections-config endpoint: the entry
name, the flat `content` key set (iterated with `for..in`), and
`entry.acl?.app` (absent or falsy falls back to `"unknown"`). -/
structure KVEntry where
  name : String
  contentKeys : List String
  aclApp : Option String
deriving DecidableEq, Repr

/-- A normalized KV store collection record. -/
structure KVStoreCollection where
  name : String
  app : String
  fields : List String
  accelerated_fields : List String
  record_count : Int
deriving DecidableEq, Repr

/-- Builds the `collectionStats` map of `listKVStoreCollections`.
A failed stats fetch, a missing/empty `entry`, or missing `data`
all leave the map empty; otherwise each record with truthy `ns` and
defined `count` is assigned (`collectionStats[ns] = count`, later
assignments winning — modelled by consing in front of an
association list looked up first-match). -/
def buildCollectionStats
    (stats : Except Unit (Option (List KVStatsEntry))) : List (String × Int) :=
  match stats with
  | Except.error _ => []
  | Except.ok none => []
  | Except.ok (some []) => []
  | Except.ok (some (e :: _)) =>
    ((e.content.data).getD []).foldl
      (fun m st =>
        match st.ns, st.count with
        | some ns, some c => if ns = "" then m else (ns, c) :: m
        | _, _ => m)
      []

/-- Strips a leading occurrence of `p` from `k` (the code's
`key.replace(p, "")`, which replaces the first occurrence — the prefix,
since the call is guarded by `key.startsWith(p)`). -/
def stripLead (k p : String) : String :=
  ⟨k.data.drop p.data.length⟩

/-- Assembles one collection from one config entry: fields are the
`content` keys starting with `field.` (prefix stripped), accelerated
fields the remaining keys starting with `accelerated_field.`;
`record_count` is the stats-map value at `app.collectionName`,
defaulting to 0 via `|| 0`. -/
def processKVEntry (m : List (String × Int)) (e : KVEntry) : KVStoreCollection :=
  let app := jsOrStr e.aclApp "unknown"
  { name := e.name
    app := app
    fields := e.contentKeys.filterMap (fun k =>
      if jsStartsWith k "field." then some (stripLead k "field.") else none)
    accelerated_fields := e.contentKeys.filterMap (fun k =>
      if jsStartsWith k "field." then none
      else if jsStartsWith k "accelerated_field." then
        some (stripLead k "accelerated_field.")
      else none)
    record_count := jsOrInt (m.lookup (app ++ "." ++ e.name)) 0 }

/-- Embedding of `SplunkClient.listKVStoreCollections`: the stats fetch
result and the `entry` list of the collections-config response are the
inputs; a stats failure only empties the stats map, never the listing,
and `response.data.entry || []` makes a missing entry list empty. -/
def listKVStoreCollections
    (stats : Except Unit (Option (List KVStatsEntry)))
    (entry : Option (List KVEntry)) : List KVStoreCollection :=
  let m := buildCollectionStats stats
  (entry.getD []).map (processKVEntry m)

/-! ## SignalFxClient: spans and traces (`parseTrace`) -/

/-- A span's tri-state status. -/
inductive SpanStatus where
  | ok : SpanStatus
  | error : SpanStatus
  | unset : SpanStatus
deriving DecidableEq, Repr

/-- One raw log record of a span. -/
structure RawLog where
  timestamp : Option Int
  fields : List (String × String)
deriving DecidableEq, Repr

/-- One parsed log record (`timestamp` defaulted via `|| 0`). -/
structure ParsedLog where
  timestamp : Int
  fields : List (String × String)
deriving DecidableEq, Repr

/-- One raw span of the API payload (fields the parser coerces are
optional; tag values are collapsed to strings, their shape is never
inspected by the code). -/
structure RawSpan where
  spanId : String
  traceId : String
  parentSpanId : Option String
  operationName : String
  serviceName : String
  startTime : Option Int
  duration : Option Int
  tags : Option (List (String × String))
  logs : Option (List RawLog)
  status : Option SpanStatus
  errorMessage : Option String
deriving DecidableEq, Repr

/-- One parsed span. -/
structure ParsedSpan where
  spanId : String
  traceId : String
  parentSpanId : Option String
  operationName : String
  serviceName : String
  startTime : Int
  duration : Int
  tags : List (String × String)
  logs : Option (List ParsedLog)
  status : SpanStatus
  errorMessage : Option String
deriving DecidableEq, Repr

/-- Per-span mapping of `parseTrace`: `startTime`/`duration` default via
`|| 0`, `tags` via `|| {}`, `status` via `|| "unset"`; `logs` are mapped
only when present. -/
def parseSpan (s : RawSpan) : ParsedSpan :=
  { spanId := s.spanId
    traceId := s.traceId
    parentSpanId := s.parentSpanId
    operationName := s.operationName
    serviceName := s.serviceName
    startTime := jsOrInt s.startTime 0
    duration := jsOrInt s.duration 0
    tags := s.tags.getD []
    logs := s.logs.map (List.map (fun l =>
      { timestamp := jsOrInt l.timestamp 0, fields := l.fields }))
    status := s.status.getD SpanStatus.unset
    errorMessage := s.errorMessage }

/-- The raw trace payload (`traceId` coerced via `|| ""`, `spans` via
`|| []`). -/
structure RawTrace where
  traceId : Option String
  spans : Option (List RawSpan)
deriving DecidableEq, Repr

/-- A parsed trace. `startTime` and `duration` are extended numbers
because the code computes them with `Math.min(..., Infinity)` and
`Math.max(..., -Infinity)`. -/
structure Trace where
  traceId : String
  spans : List ParsedSpan
  startTime : ENum
  duration : ENum
  services : List String
  operationName : Option String
deriving DecidableEq, Repr

/-- One insertion into a JavaScript `Set` materialized as a list:
already-seen elements are dropped, new ones appended (insertion order). -/
def insertDedup (acc : List String) (s : String) : List String :=
  if s ∈ acc then acc else acc ++ [s]

/-- `Array.from(new Set(l))`: deduplication in insertion order. -/
def setFromList (l : List String) : List String :=
  l.foldl insertDedup []

/-- Embedding of `SignalFxClient.parseTrace`: parse each span, dedupe
service names via a `Set`, fold `Math.min` over start times with base
`Infinity` and `Math.max` over end times with base `-Infinity`, subtract
for the duration, and take the first span's operation name if any. -/
def parseTrace (t : RawTrace) : Trace :=
  let spans := (t.spans.getD []).map parseSpan
  let services := setFromList (spans.map (fun s => s.serviceName))
  let startTime := (spans.map (fun s => ENum.fin s.startTime)).foldr eMin ENum.posInf
  let endTime :=
    (spans.map (fun s => ENum.fin (s.startTime + s.duration))).foldr eMax ENum.negInf
  { traceId := jsOrStr t.traceId ""
    spans := spans
    startTime := startTime
    duration := eSub endTime startTime
    services := services
    operationName := (spans.head?).map (fun s => s.operationName) }

/-! ## SignalFxClient: trace search (`buildTraceQuery`, `searchTraces`) -/

/-- JavaScript truthiness filter on an optional string: the empty string
is falsy, so `if (criteria.x) query.x = criteria.x` keeps exactly the
present non-empty values. -/
def jsTruthyStr (v : Option String) : Option String :=
  match v with
  | some s => if s = "" then none else some s
  | none => none

/-- The sparse search criteria (`TraceSearchCriteria`): every field may
be absent. -/
structure TraceSearchCriteria where
  service : Option String
  operation : Option String
  tags : Option (List (String × String))
  minDuration : Option Int
  maxDuration : Option Int
  error : Option Bool
  limit : Option Int
  offset : Option Int
  startTime : Option Int
  endTime : Option Int
deriving DecidableEq, Repr

/-- The outgoing query body: a key is in the JSON object iff the
corresponding field here is `some`; `limit` and `offset` are always
present. -/
structure TraceQuery where
  service : Option String
  operation : Option String
  tags : Option (List (String × String))
  minDuration : Option Int
  maxDuration : Option Int
  error : Option Bool
  startTime : Option Int
  endTime : Option Int
  limit : Int
  offset : Int
deriving DecidableEq, Repr

/-- Embedding of `SignalFxClient.buildTraceQuery`: `service`, `operation`
and `tags` are included under a truthiness test (`if (criteria.x)`) —
for `tags` any present object is truthy; the five scalar criteria are
included under `!== undefined`; `limit` and `offset` are always set via
`criteria.limit || 100` and `criteria.offset || 0`. -/
def buildTraceQuery (criteria : TraceSearchCriteria) : TraceQuery :=
  { service := jsTruthyStr criteria.service
    operation := jsTruthyStr criteria.operation
    tags := criteria.tags
    minDuration := criteria.minDuration
    maxDuration := criteria.maxDuration
    error := criteria.error
    startTime := criteria.startTime
    endTime := criteria.endTime
    limit := jsOrInt criteria.limit 100
    offset := jsOrInt criteria.offset 0 }

/-- The trace-search response payload (`traces` and `totalCount` may be
absent). -/
structure TraceSearchResponse where
  traces : Option (List RawTrace)
  totalCount : Option Int
deriving DecidableEq, Repr

/-- The assembled search result. -/
structure TraceSearchResult where
  traces : List Trace
  totalCount : Int
  limit : Int
  offset : Int
deriving DecidableEq, Repr

/-- Embedding of the response assembly of `SignalFxClient.searchTraces`:
parse `response.data.traces || []`, then `totalCount` falls back to the
parsed count via `|| traces.length`, and `limit`/`offset` echo the
criteria via `criteria.limit || 100` and `criteria.offset || 0`. -/
def searchTraces (criteria : TraceSearchCriteria)
    (resp : TraceSearchResponse) : TraceSearchResult :=
  let traces := (resp.traces.getD []).map parseTrace
  { traces := traces
    totalCount := jsOrInt resp.totalCount (traces.length : Int)
    limit := jsOrInt criteria.limit 100
    offset := jsOrInt criteria.offset 0 }

/-! ## Spec-side definitions

These follow the specification's words, independently of the code, and
are related to the embedded code by the theorems below. -/

/-- Modelled from the spec: the minimum of a list of numbers, `none`
when the list is empty. -/
def listMinInt : List Int → Option Int
  | [] => none
  | x :: xs =>
    match listMinInt xs with
    | none => some x
    | some m => some (min x m)

/-- Modelled from the spec: the maximum of a list of numbers, `none`
when the list is empty. -/
def listMaxInt : List Int → Option Int
  | [] => none
  | x :: xs =>
    match listMaxInt xs with
    | none => some x
    | some m => some (max x m)

/-- Modelled from the spec: the minimum as an extended number,
`+infinity` when the list is empty. -/
def specMin (l : List Int) : ENum :=
  match listMinInt l with
  | none => ENum.posInf
  | some m => ENum.fin m

/-- Modelled from the spec: the maximum as an extended number,
`-infinity` when the list is empty. -/
def specMax (l : List Int) : ENum :=
  match listMaxInt l with
  | none => ENum.negInf
  | some m => ENum.fin m

/-- Modelled from the spec: deduplication keeping the first occurrence
of each element, in first-seen order. -/
def firstSeenDedup : List String → List String
  | [] => []
  | x :: xs => x :: (firstSeenDedup xs).filter (fun y => y ≠ x)

/-! ## Concrete example inputs used by the claim theorems -/

/-- The two-span trace payload of the spec's trace-aggregation example
(and of the repository's mock test): spans `(startTime, duration) =
(1000000, 150)` on `api-gateway` and `(1000010, 50)` on `user-service`. -/
def c1raw : RawTrace :=
  { traceId := some "trace-456"
    spans := some
      [ { spanId := "span-1", traceId := "trace-456", parentSpanId := none
          operationName := "http.request", serviceName := "api-gateway"
          startTime := some 1000000, duration := some 150
          tags := some [("http.method", "GET")], logs := none
          status := some SpanStatus.ok, errorMessage := none }
      , { spanId := "span-2", traceId := "trace-456", parentSpanId := some "span-1"
          operationName := "db.query", serviceName := "user-service"
          startTime := some 1000010, duration := some 50
          tags := some [("db.type", "postgresql")], logs := none
          status := some SpanStatus.ok, errorMessage := none } ] }

/-- A user entry whose `capabilities` value is a present scalar. -/
def c3entry : UserEntry :=
  { name := "bob"
    content :=
      { roles := JStrings.array ["user"]
        capabilities := JStrings.scalar "admin"
        realname := none, email := none, defaultApp := none, utype := none } }

/-- Criteria whose `service` is explicitly provided but falsy (`""`). -/
def c6crit : TraceSearchCriteria :=
  { service := some "", operation := none, tags := none
    minDuration := none, maxDuration := none, error := none
    limit := none, offset := none, startTime := none, endTime := none }

/-- Criteria mixing truthy, falsy-but-present and absent fields. -/
def c6critW : TraceSearchCriteria :=
  { service := some "svc", operation := some "op", tags := some []
    minDuration := some 0, maxDuration := none, error := some false
    limit := some 50, offset := some 0, startTime := none, endTime := none }

/-- Criteria with truthy limit and offset. -/
def c10crit : TraceSearchCriteria :=
  { service := some "api-gateway", operation := none, tags := none
    minDuration := none, maxDuration := none, error := none
    limit := some 50, offset := some 7, startTime := none, endTime := none }

/-- A trace-search response with one raw trace and no `totalCount`. -/
def c10resp : TraceSearchResponse :=
  { traces := some [{ traceId := some "t1", spans := some [] }]
    totalCount := none }

/-- A single-entry users payload whose `roles` is a scalar and whose
`capabilities` is an array. -/
def c3scalarRoles (s : String) (xs : List String) : UserEntry :=
  { name := "u"
    content :=
      { roles := JStrings.scalar s
        capabilities := JStrings.array xs
        realname := none, email := none, defaultApp := none, utype := none } }

/-! ## Helper lemmas relating the code's folds to the spec-side
definitions -/

theorem foldr_eMin_eq_specMin (l : List Int) :
    (l.map ENum.fin).foldr eMin ENum.posInf = specMin l := by
  induction l with
  | nil => rfl
  | cons x xs ih =>
    rw [List.map_cons, List.foldr_cons, ih]
    cases h : listMinInt xs with
    | none => simp [specMin, listMinInt, h, eMin]
    | some m => simp [specMin, listMinInt, h, eMin]

theorem foldr_eMax_eq_specMax (l : List Int) :
    (l.map ENum.fin).foldr eMax ENum.negInf = specMax l := by
  induction l with
  | nil => rfl
  | cons x xs ih =>
    rw [List.map_cons, List.foldr_cons, ih]
    cases h : listMaxInt xs with
    | none => simp [specMax, listMaxInt, h, eMax]
    | some m => simp [specMax, listMaxInt, h, eMax]

theorem foldl_insertDedup (l : List String) :
    ∀ acc : List String, l.foldl insertDedup acc
      = acc ++ (firstSeenDedup l).filter (fun y => y ∉ acc) := by
  induction l with
  | nil => intro acc; simp [firstSeenDedup]
  | cons x xs ih =>
    intro acc
    rw [List.foldl_cons]
    by_cases hx : x ∈ acc
    · rw [show insertDedup acc x = acc by simp [insertDedup, hx]]
      rw [ih acc]
      congr 1
      rw [firstSeenDedup]
      rw [List.filter_cons]
      simp only [hx, decide_not, decide_True, Bool.not_true, if_false]
      rw [List.filter_filter]
      apply List.filter_congr
      intro y _
      by_cases hy : y ∈ acc
      · simp [hy]
      · have hyx : y ≠ x := by rintro rfl; exact hy hx
        simp [hy, hyx]
    · rw [show insertDedup acc x = acc ++ [x] by simp [insertDedup, hx]]
      rw [ih (acc ++ [x])]
      rw [firstSeenDedup]
      rw [List.filter_cons]
      simp only [hx, decide_not, decide_True, if_true]
      rw [List.filter_filter]
      rw [List.append_assoc]
      congr 1
      rw [List.singleton_append]
      simp only [List.mem_append, List.mem_singleton]
      congr 1
      apply List.filter_congr
      intro y _
      by_cases hy : y ∈ acc
      · simp [hy]
      · by_cases hyx : y = x <;> simp [hy, hyx]

theorem setFromList_eq_firstSeenDedup (l : List String) :
    setFromList l = firstSeenDedup l := by
  rw [setFromList, foldl_insertDedup]
  simp

theorem search_append_ne (q : String) : ("search " ++ q) ≠ q := by
  intro hEq
  have hlen : ("search " ++ q).length = q.length := by rw [hEq]
  rw [String.length_append] at hlen
  have h7 : ("search " : String).length = 7 := rfl
  omega

/-- C1 counterexample: on the spec's own two-span example the parsed
duration is 150 (max span end `1000000 + 150 = 1000150` minus min start
`1000000`), not 60 as claimed. -/
theorem c1_trace_duration_counterexample :
    (parseTrace c1raw).duration = ENum.fin 150 ∧ ENum.fin 150 ≠ ENum.fin 60 := by
  constructor
  · rfl
  · decide

/-- C1 (amended): for the raw payload with spans `(1000000, 150)` and
`(1000010, 50)` on two different services, the parsed trace's services
list contains both service names and its duration equals 150. -/
theorem c1_trace_aggregation :
    "api-gateway" ∈ (parseTrace c1raw).services ∧
    "user-service" ∈ (parseTrace c1raw).services ∧
    (parseTrace c1raw).duration = ENum.fin 150 := by
  refine ⟨?_, ?_, rfl⟩ <;> decide

/-- C2 counterexample: `listIndexes` with a missing `entry` field does
not return an empty result — it fails (the unguarded
`response.data.entry.map` throws). -/
theorem c2_missing_entry_counterexample : (listIndexes none).isOk = false := rfl

/-- C2 (amended): an empty `entry` array yields an empty result for all
four listings, and a missing `entry` yields an empty result for
`listSavedSearches`, `listUsers` and `listKVStoreCollections`, but an
error for `listIndexes`. -/
theorem c2_listings_empty_entry :
    listIndexes (some []) = Except.ok [] ∧
    (listIndexes none).isOk = false ∧
    listSavedSearches none = [] ∧ listSavedSearches (some []) = [] ∧
    listUsers none = [] ∧ listUsers (some []) = [] ∧
    (∀ stats, listKVStoreCollections stats none = [] ∧
      listKVStoreCollections stats (some []) = []) :=
  ⟨rfl, rfl, rfl, rfl, rfl, rfl, fun _ => ⟨rfl, rfl⟩⟩

/-- C3 counterexample: in `getCurrentUser` a present scalar
`capabilities` value is dropped to `[]`, not wrapped into a one-element
sequence. -/
theorem c3_scalar_capability_counterexample :
    c3entry.content.capabilities = JStrings.scalar "admin" ∧
    Except.map (fun u => u.capabilities)
      (getCurrentUser (some "bob") (Except.error ()) (some [c3entry]))
      = Except.ok [] ∧
    (([] : List String) ≠ ["admin"]) := by
  refine ⟨rfl, rfl, by decide⟩

/-- C3 (amended): `roles` in both normalizations and `capabilities` in
`listUsers` are coerced by three cases in order — array unchanged,
present truthy scalar wrapped (the falsy scalar `""` yields empty),
absent empty — while `capabilities` in `getCurrentUser` uses only two
cases: array unchanged, anything else empty. -/
theorem c3_user_coercion (xs : List String) (s : String) (h : s ≠ "") :
    coerceThreeCase (JStrings.array xs) = xs ∧
    coerceThreeCase (JStrings.scalar s) = [s] ∧
    coerceThreeCase (JStrings.scalar "") = [] ∧
    coerceThreeCase JStrings.absent = [] ∧
    coerceArrayOnly (JStrings.array xs) = xs ∧
    coerceArrayOnly (JStrings.scalar s) = [] ∧
    coerceArrayOnly JStrings.absent = [] ∧
    (listUsers (some [c3scalarRoles s xs])).map (fun u => (u.roles, u.capabilities))
      = [([s], xs)] := by
  refine ⟨rfl, ?_, rfl, rfl, rfl, rfl, rfl, ?_⟩
  · simp [coerceThreeCase, h]
  · simp [listUsers, c3scalarRoles, coerceThreeCase, coerceArrayOnly, h]

/-- C3 witness: the amended coercion cases at the scalar `"admin"` and
the array `["a"]`. -/
theorem c3_user_coercion_witness :
    coerceThreeCase (JStrings.scalar "admin") = ["admin"] ∧
    coerceArrayOnly (JStrings.scalar "admin") = [] := by
  obtain ⟨_, h2, _, _, _, h6, _, _⟩ := c3_user_coercion ["a"] "admin" (by decide)
  exact ⟨h2, h6⟩

/-- C4 counterexample: a whitespace-only query passes the `!searchQuery`
validation (it is truthy) and a network request is issued with the
prefixed outbound query. -/
theorem c4_blank_query_counterexample :
    prepareSearchQuery " " = Except.ok ("search " ++ " ") := rfl

/-- C4 (amended): only the literally empty query is rejected with the
validation failure (and no network call); every non-empty query —
including whitespace-only ones — passes validation and produces an
outbound query. -/
theorem c4_empty_query_validation (q : String) :
    prepareSearchQuery "" = Except.error "Search query cannot be empty" ∧
    (prepareSearchQuery q).isOk = !(q == "") := by
  refine ⟨rfl, ?_⟩
  by_cases h : q = ""
  · subst h; rfl
  · have hb : (q == "") = false := by simpa using h
    rw [hb, prepareSearchQuery, if_neg h]
    show (if (!jsStartsWith (jsTrim q) "|"
            && !jsStartsWith (jsToLower (jsTrim q)) "search") = true
        then Except.ok ("search " ++ q) else Except.ok q).isOk = !false
    split <;> rfl

/-- C5: for a non-empty query, the outbound query is the original query
prefixed with `search ` exactly when the trimmed query starts neither
with `|` nor (case-insensitively) with `search`; otherwise it is the
input unchanged. -/
theorem c5_query_prefix_rule (q : String) (h : q ≠ "") :
    (prepareSearchQuery q = Except.ok ("search " ++ q) ↔
      jsStartsWith (jsTrim q) "|" = false ∧
        jsStartsWith (jsToLower (jsTrim q)) "search" = false) ∧
    ((jsStartsWith (jsTrim q) "|" = true ∨
        jsStartsWith (jsToLower (jsTrim q)) "search" = true) →
      prepareSearchQuery q = Except.ok q) := by
  have hne : q ≠ "search " ++ q := fun e => search_append_ne q e.symm
  rw [prepareSearchQuery, if_neg h]
  cases h1 : jsStartsWith (jsTrim q) "|" <;>
    cases h2 : jsStartsWith (jsToLower (jsTrim q)) "search" <;>
      simp [h1, h2, hne]

/-- C5 witness: `"index=main"` gets the prefix, `"| stats count"` is
passed through unchanged. -/
theorem c5_query_prefix_witness :
    prepareSearchQuery "index=main" = Except.ok ("search " ++ "index=main") ∧
    prepareSearchQuery "| stats count" = Except.ok "| stats count" := by
  constructor
  · exact ((c5_query_prefix_rule "index=main" (by decide)).1).mpr ⟨by decide, by decide⟩
  · exact (c5_query_prefix_rule "| stats count" (by decide)).2 (Or.inl (by decide))

/-- C6 counterexample: `service` explicitly provided as the falsy `""`
is dropped from the outgoing body, contradicting "included whenever
explicitly provided". -/
theorem c6_falsy_service_counterexample :
    c6crit.service = some "" ∧ (buildTraceQuery c6crit).service = none :=
  ⟨rfl, rfl⟩

/-- C6 (amended): `service`, `operation` and `tags` are included exactly
when provided and truthy (for `tags` any present object is truthy);
`minDuration`, `maxDuration`, `error`, `startTime`, `endTime` are
included exactly when explicitly provided, including falsy values;
`limit` and `offset` are always included, `limit` defaulting to 100 when
absent or 0 and `offset` to 0. -/
theorem c6_build_query (c : TraceSearchCriteria) :
    ((c.service = none ∨ c.service = some "") → (buildTraceQuery c).service = none) ∧
    (∀ s, c.service = some s → s ≠ "" → (buildTraceQuery c).service = some s) ∧
    ((c.operation = none ∨ c.operation = some "") → (buildTraceQuery c).operation = none) ∧
    (∀ s, c.operation = some s → s ≠ "" → (buildTraceQuery c).operation = some s) ∧
    (buildTraceQuery c).tags = c.tags ∧
    (buildTraceQuery c).minDuration = c.minDuration ∧
    (buildTraceQuery c).maxDuration = c.maxDuration ∧
    (buildTraceQuery c).error = c.error ∧
    (buildTraceQuery c).startTime = c.startTime ∧
    (buildTraceQuery c).endTime = c.endTime ∧
    ((c.limit = none ∨ c.limit = some 0) → (buildTraceQuery c).limit = 100) ∧
    (∀ n, c.limit = some n → n ≠ 0 → (buildTraceQuery c).limit = n) ∧
    ((c.offset = none ∨ c.offset = some 0) → (buildTraceQuery c).offset = 0) ∧
    (∀ n, c.offset = some n → n ≠ 0 → (buildTraceQuery c).offset = n) := by
  refine ⟨?_, ?_, ?_, ?_, rfl, rfl, rfl, rfl, rfl, rfl, ?_, ?_, ?_, ?_⟩
  · rintro (h | h) <;> simp [buildTraceQuery, jsTruthyStr, h]
  · intro s hs hne; simp [buildTraceQuery, jsTruthyStr, hs, hne]
  · rintro (h | h) <;> simp [buildTraceQuery, jsTruthyStr, h]
  · intro s hs hne; simp [buildTraceQuery, jsTruthyStr, hs, hne]
  · rintro (h | h) <;> simp [buildTraceQuery, jsOrInt, h]
  · intro n hn hne; simp [buildTraceQuery, jsOrInt, hn, hne]
  · rintro (h | h) <;> simp [buildTraceQuery, jsOrInt, h]
  · intro n hn hne; simp [buildTraceQuery, jsOrInt, hn, hne]

/-- C6 witness: on criteria mixing truthy, falsy-but-present and absent
fields, the truthy `service` and the falsy-but-present `minDuration` and
`error` are all included, and `limit`/`offset` take their values. -/
theorem c6_build_query_witness :
    (buildTraceQuery c6critW).service = some "svc" ∧
    (buildTraceQuery c6critW).minDuration = some 0 ∧
    (buildTraceQuery c6critW).error = some false ∧
    (buildTraceQuery c6critW).limit = 50 ∧
    (buildTraceQuery c6critW).offset = 0 := by
  obtain ⟨h1, h2, h3, h4, h5, h6, h7, h8, h9, h10, h11, h12, h13, h14⟩ :=
    c6_build_query c6critW
  exact ⟨h2 "svc" rfl (by decide), h6, h8, h12 50 rfl (by decide), h13 (Or.inr rfl)⟩

/-- C7: for every raw trace payload, the parsed trace's `startTime` is
the minimum span start time (+infinity when no spans), its `duration` is
the maximum span end time (-infinity when no spans) minus that
`startTime`, its `services` are the span service names deduplicated in
first-seen order, and its `operationName` is the first span's operation
name when spans exist and unset otherwise. -/
theorem c7_parse_trace_aggregates (t : RawTrace) :
    (parseTrace t).startTime
      = specMin ((parseTrace t).spans.map (fun s => s.startTime)) ∧
    (parseTrace t).duration
      = eSub (specMax ((parseTrace t).spans.map (fun s => s.startTime + s.duration)))
          ((parseTrace t).startTime) ∧
    (parseTrace t).services
      = firstSeenDedup ((parseTrace t).spans.map (fun s => s.serviceName)) ∧
    (parseTrace t).operationName
      = ((parseTrace t).spans.head?).map (fun s => s.operationName) := by
  refine ⟨?_, ?_, ?_, rfl⟩
  · rw [← foldr_eMin_eq_specMin, List.map_map]
    rfl
  · rw [← foldr_eMax_eq_specMax, List.map_map]
    rfl
  · exact setFromList_eq_firstSeenDedup _

/-- C8: fetching a single named index whose response has a missing or
empty `entry` list fails with a not-found error naming the index. -/
theorem c8_get_index_not_found (name : String) (entry : Option (List IndexEntry))
    (h : entry = none ∨ entry = some []) :
    getIndexInfo name entry = Except.error ("Index not found: " ++ name) := by
  rcases h with h | h <;> subst h <;> rfl

/-- C8 witness: `getIndexInfo "nonexistent"` against an empty entry
list. -/
theorem c8_get_index_not_found_witness :
    getIndexInfo "nonexistent" (some [])
      = Except.error ("Index not found: " ++ "nonexistent") :=
  c8_get_index_not_found "nonexistent" (some []) (Or.inr rfl)

/-- C9: a failed collection-stats fetch leaves every returned
collection with `record_count = 0` while the listing itself still
returns every collection; in general `record_count` is the stats-map
value at the composite key `app.collectionName`, defaulting to 0. -/
theorem c9_kvstore_stats_best_effort (es : List KVEntry)
    (st : Except Unit (Option (List KVStatsEntry)))
    (m : List (String × Int)) (e : KVEntry) :
    ((listKVStoreCollections (Except.error ()) (some es)).all
        (fun c => c.record_count == 0)) = true ∧
    (listKVStoreCollections (Except.error ()) (some es)).map (fun c => c.name)
        = es.map (fun x => x.name) ∧
    (listKVStoreCollections st (some es)).map (fun c => c.name)
        = es.map (fun x => x.name) ∧
    (processKVEntry m e).record_count
        = jsOrInt (m.lookup (jsOrStr e.aclApp "unknown" ++ "." ++ e.name)) 0 := by
  refine ⟨?_, ?_, ?_, rfl⟩
  · show (es.map (processKVEntry [])).all (fun c => c.record_count == 0) = true
    induction es with
    | nil => rfl
    | cons a as ih => simp only [List.map_cons, List.all_cons, ih,
        Bool.and_true]; simp [processKVEntry, jsOrInt]
  · show (es.map (processKVEntry [])).map (fun c => c.name) = es.map (fun x => x.name)
    rw [List.map_map]
    rfl
  · show (es.map (processKVEntry (buildCollectionStats st))).map (fun c => c.name)
        = es.map (fun x => x.name)
    rw [List.map_map]
    rfl

/-- C10: when the upstream response omits `totalCount`, the result's
`totalCount` is the number of parsed traces; `limit` and `offset` echo
truthy criteria values and default to 100 and 0 otherwise. -/
theorem c10_search_traces_defaults (c : TraceSearchCriteria)
    (resp : TraceSearchResponse) (h : resp.totalCount = none) :
    (searchTraces c resp).totalCount
        = ((searchTraces c resp).traces.length : Int) ∧
    ((c.limit = none ∨ c.limit = some 0) → (searchTraces c resp).limit = 100) ∧
    (∀ n, c.limit = some n → n ≠ 0 → (searchTraces c resp).limit = n) ∧
    ((c.offset = none ∨ c.offset = some 0) → (searchTraces c resp).offset = 0) ∧
    (∀ n, c.offset = some n → n ≠ 0 → (searchTraces c resp).offset = n) := by
  refine ⟨?_, ?_, ?_, ?_, ?_⟩
  · simp [searchTraces, h, jsOrInt]
  · rintro (hl | hl) <;> simp [searchTraces, jsOrInt, hl]
  · intro n hn hne; simp [searchTraces, jsOrInt, hn, hne]
  · rintro (hl | hl) <;> simp [searchTraces, jsOrInt, hl]
  · intro n hn hne; simp [searchTraces, jsOrInt, hn, hne]

/-- C10 witness: a one-trace response without `totalCount` and criteria
with `limit = 50`, `offset = 7`. -/
theorem c10_search_traces_witness :
    (searchTraces c10crit c10resp).totalCount = 1 ∧
    (searchTraces c10crit c10resp).limit = 50 ∧
    (searchTraces c10crit c10resp).offset = 7 := by
  obtain ⟨h1, h2, h3, h4, h5⟩ := c10_search_traces_defaults c10crit c10resp rfl
  refine ⟨h1.trans (by decide), h3 50 rfl (by decide), h5 7 rfl (by decide)⟩
